import Mathlib

/-!
Verification of the dutch-house-scraper repository.

This file shallowly embeds the Python code of the repository
(src/models/listing_status.py, src/utils/utils.py, src/utils/request_manager.py,
src/scrapers/base.py, src/scrapers/funda.py) as executable Lean definitions and
proves theorems about them.  Python exceptions are modelled with `Except`,
`None` with `Option`, JSON values with an inductive type, and the relevant
string builtins (`lower`, `strip`, `split`, `int`, `isdigit`, substring `in`)
are modelled character-by-character on ASCII text, which is the alphabet all
inputs in the claims use.
-/

deriving instance DecidableEq for Except

namespace Scraper

/-- Kinds of Python exceptions that the embedded code can raise or catch. -/
inductive PyExc where
  | valueError
  | typeError
  | keyError
  | attributeError
  | indexError
deriving DecidableEq, Repr

/-- Python whitespace for `str.strip` / `str.split()` / regex `\s`
(space, tab, newline, carriage return, vertical tab, form feed). -/
def pyIsWs (c : Char) : Bool :=
  c = ' ' || c = '\t' || c = '\n' || c = '\r' || c = Char.ofNat 11 || c = Char.ofNat 12

/-- `str.lower()` on ASCII text, character by character. -/
def pyLower (s : String) : String :=
  ⟨s.data.map Char.toLower⟩

/-- Drop leading whitespace from a character list. -/
def dropWsLeft (l : List Char) : List Char :=
  l.dropWhile pyIsWs

/-- `str.strip()`: drop whitespace at both ends. -/
def pyStrip (s : String) : String :=
  ⟨((dropWsLeft s.data).reverse |> dropWsLeft).reverse⟩

/-- Helper for `pySplitWs`: accumulates the current token in reverse. -/
def pySplitWsAux : List Char → List Char → List String
  | [], [] => []
  | [], acc => [⟨acc.reverse⟩]
  | c :: cs, acc =>
      if pyIsWs c then
        match acc with
        | [] => pySplitWsAux cs []
        | _ => ⟨acc.reverse⟩ :: pySplitWsAux cs []
      else pySplitWsAux cs (c :: acc)

/-- Python `str.split()` with no argument: split on whitespace runs,
never producing empty tokens (so `"".split()` is `[]`). -/
def pySplitWs (s : String) : List String :=
  pySplitWsAux s.data []

/-- Python `lst[0]` on a list: `IndexError` when the list is empty. -/
def pyGetZero (l : List String) : Except PyExc String :=
  match l with
  | [] => .error .indexError
  | x :: _ => .ok x

/-- Value of a nonempty digit string. -/
def digitsVal (l : List Char) : Nat :=
  l.foldl (fun acc c => acc * 10 + (c.toNat - 48)) 0

/-- Python `int(s)` on ASCII text: strips whitespace, accepts one optional
sign followed by at least one decimal digit, otherwise raises `ValueError`.
(Underscore digit grouping and non-ASCII digits are not modelled; no input in
this development uses them.) -/
def pyInt (s : String) : Except PyExc Int :=
  let t := dropWsLeft ((dropWsLeft s.data).reverse) |>.reverse
  match t with
  | [] => .error .valueError
  | c :: ds =>
    if c = '-' then
      if ds ≠ [] ∧ ds.all Char.isDigit then .ok (-(digitsVal ds : Int)) else .error .valueError
    else if c = '+' then
      if ds ≠ [] ∧ ds.all Char.isDigit then .ok (digitsVal ds : Int) else .error .valueError
    else
      if (c :: ds).all Char.isDigit then .ok (digitsVal (c :: ds) : Int) else .error .valueError

/-- Python `str.isdigit()` on ASCII text: nonempty and all decimal digits. -/
def pyIsDigit (s : String) : Bool :=
  s ≠ "" && s.data.all Char.isDigit

end Scraper

namespace Scraper

/-! ## src/models/listing_status.py -/

/-- The `ListingStatus` enum. -/
inductive ListingStatus where
  | BESCHIKBAAR
  | ONDER_BOD
  | VERKOCHT
deriving DecidableEq, Repr

/-- The `.value` string of each enum member. -/
def ListingStatus.value : ListingStatus → String
  | .BESCHIKBAAR => "Beschikbaar"
  | .ONDER_BOD => "Onder bod"
  | .VERKOCHT => "Verkocht"

/-- `_listing_status_aliases`: mapping of aliases for listing statuses,
keyed by the enum member value exactly as in the source. -/
def listing_status_aliases (key : String) : List String :=
  if key = "Beschikbaar" then ["beschikbaar", "available"]
  else if key = "Onder bod" then ["onder bod", "under offer"]
  else if key = "Verkocht" then ["verkocht", "sold", "verkocht onder voorbehoud"]
  else []

/-- Errors raised by `ListingStatus.from_string` (both are `ValueError`s in
Python; we keep the two messages apart). -/
inductive StatusErr where
  | emptyInput
  | unrecognized
deriving DecidableEq, Repr

/-- Iteration order of `for enum_member in cls`. -/
def listingStatusMembers : List ListingStatus :=
  [.BESCHIKBAAR, .ONDER_BOD, .VERKOCHT]

/-- The loop body test of `from_string`: the normalized text is one of the
lowered aliases of the member, or equals the lowered member value. -/
def statusMatches (text : String) (m : ListingStatus) : Bool :=
  ((listing_status_aliases m.value).map pyLower).contains text
    || text = pyLower m.value

/-- `ListingStatus.from_string`: rejects the empty string, then lowers and
strips the text and scans the members in order. -/
def ListingStatus.from_string (text : String) : Except StatusErr ListingStatus :=
  if text = "" then .error .emptyInput
  else
    let t := pyStrip (pyLower text)
    match listingStatusMembers.find? (statusMatches t) with
    | some m => .ok m
    | none => .error .unrecognized

/-- Every name (lowered alias or lowered member value) that `from_string`
can match, over all three members. -/
def allStatusNames : List String :=
  listingStatusMembers.flatMap fun m =>
    ((listing_status_aliases m.value).map pyLower) ++ [pyLower m.value]

end Scraper

namespace Scraper

lemma statusMatches_eq_false_of_not_mem (t : String)
    (h : t ∉ allStatusNames) (m : ListingStatus) (hm : m ∈ listingStatusMembers) :
    statusMatches t m = false := by
  have hmem : t ∉ (listing_status_aliases m.value).map pyLower := by
    intro hc
    apply h
    simp only [allStatusNames, List.mem_flatMap]
    exact ⟨m, hm, List.mem_append.mpr (Or.inl hc)⟩
  have h2 : t ≠ pyLower m.value := by
    intro he
    apply h
    simp only [allStatusNames, List.mem_flatMap]
    exact ⟨m, hm, List.mem_append.mpr (Or.inr (by simp [he]))⟩
  simp [statusMatches, hmem, h2]

lemma from_string_unrecognized_of_not_mem (s : String) (hne : s ≠ "")
    (h : pyStrip (pyLower s) ∉ allStatusNames) :
    ListingStatus.from_string s = .error .unrecognized := by
  unfold ListingStatus.from_string
  rw [if_neg hne]
  have : listingStatusMembers.find? (statusMatches (pyStrip (pyLower s))) = none := by
    rw [List.find?_eq_none]
    intro m hm
    simp [statusMatches_eq_false_of_not_mem _ h m hm]
  simp [this]

/-- C4: `ListingStatus.from_string` is case- and whitespace-insensitive and
alias-complete: "VERKOCHT ONDER VOORBEHOUD", " verkocht " and "sold" all
resolve to VERKOCHT; every nonempty string whose lowered, stripped form is
not among the known names fails with the unrecognized-status error, and the
empty string fails with the empty-input error. -/
theorem C4_from_string_aliases :
    ListingStatus.from_string "VERKOCHT ONDER VOORBEHOUD" = .ok .VERKOCHT ∧
    ListingStatus.from_string " verkocht " = .ok .VERKOCHT ∧
    ListingStatus.from_string "sold" = .ok .VERKOCHT ∧
    (∀ s : String, s ≠ "" → pyStrip (pyLower s) ∉ allStatusNames →
      ListingStatus.from_string s = .error .unrecognized) ∧
    ListingStatus.from_string "" = .error .emptyInput := by
  refine ⟨by decide, by decide, by decide, ?_, by decide⟩
  exact from_string_unrecognized_of_not_mem

/-- Witness for C4: instantiating the universally quantified part at
"pending" shows the unlisted string fails with the unrecognized error. -/
theorem C4_from_string_aliases_witness :
    ListingStatus.from_string "pending" = .error .unrecognized :=
  C4_from_string_aliases.2.2.2.1 "pending" (by decide) (by decide)

/-- C10: a nonempty all-whitespace input reaches the alias scan (the
emptiness test happens before stripping) and fails with the
unrecognized-status error, not the empty-input error. -/
theorem C10_whitespace_only_is_unrecognized :
    ListingStatus.from_string "   " = .error .unrecognized ∧
    ListingStatus.from_string "   " ≠ .error .emptyInput := by
  constructor
  · decide
  · decide

end Scraper

namespace Scraper

/-! ## JSON values

Parsed JSON data (`json.load` / `json.loads` results) is modelled by an
inductive type: objects keep their key order as association lists (Python
dicts preserve insertion order and have unique keys), and numbers are
modelled as integers, which covers every number appearing in the claims. -/

inductive JValue where
  | null
  | bool (b : Bool)
  | num (n : Int)
  | str (s : String)
  | arr (xs : List JValue)
  | obj (kvs : List (String × JValue))

/-- Python `d.get(k)` / `k in d` lookup on an object: first matching key. -/
def JValue.objGet (kvs : List (String × JValue)) (k : String) : Option JValue :=
  match kvs with
  | [] => none
  | (k', v) :: rest => if k' = k then some v else JValue.objGet rest k

end Scraper

namespace Scraper

/-! ## src/utils/request_manager.py -/

/-- Errors of `RequestManager.load_requests`: `FileNotFoundError` when the
file is absent, `ValueError` when the parsed JSON is not an object with a
"urls" key. -/
inductive LoadErr where
  | missingFile
  | malformed
deriving DecidableEq, Repr

/-- `RequestManager.load_requests`, with the file system modelled as the
optional parsed JSON content of the manager's single file.  The check is
`isinstance(data, dict) and "urls" in data`; the value under "urls" is
stored as-is, without validation. -/
def load_requests (file : Option JValue) : Except LoadErr JValue :=
  match file with
  | none => .error .missingFile
  | some data =>
    match data with
    | .obj kvs =>
      match JValue.objGet kvs "urls" with
      | some v => .ok v
      | none => .error .malformed
    | _ => .error .malformed

/-- In-memory state of a `RequestManager`: the loaded `urls` list and the
content of its JSON file (`none` when the file does not exist). -/
structure RequestManager where
  urls : List String
  file : Option JValue

/-- The JSON written by `_save_to_file`: `{"urls": self.urls}`. -/
def mkUrlsJson (urls : List String) : JValue :=
  .obj [("urls", .arr (urls.map .str))]

/-- `RequestManager._save_to_file`. -/
def save_to_file (rm : RequestManager) : RequestManager :=
  { rm with file := some (mkUrlsJson rm.urls) }

/-- `RequestManager.add_url`: append and save only when the URL is not
already present. -/
def add_url (rm : RequestManager) (url : String) : RequestManager :=
  if url ∈ rm.urls then rm
  else save_to_file { rm with urls := rm.urls ++ [url] }

end Scraper

namespace Scraper

/-! ## src/scrapers/base.py -/

/-- The `Website` enum from src/models.py. -/
inductive Website where
  | FUNDA
  | HUISLIJN
deriving DecidableEq, Repr

/-- Does `hay` start with `needle`? -/
def startsWithList : List Char → List Char → Bool
  | [], _ => true
  | _ :: _, [] => false
  | a :: as, b :: bs => a = b && startsWithList as bs

/-- Does `needle` occur as a contiguous run inside `hay`? -/
def containsList (needle : List Char) : List Char → Bool
  | [] => startsWithList needle []
  | b :: bs => startsWithList needle (b :: bs) || containsList needle bs

/-- Python substring test `needle in hay` on strings. -/
def pyInStr (needle hay : String) : Bool :=
  containsList needle.data hay.data

/-- `BaseScraper._get_website`: tests `"funda" in self.url` then
`"huislijn" in self.url` on the whole URL string, raising `ValueError`
("Unknown website encountered in url") when neither matches. -/
def get_website (url : String) : Except PyExc Website :=
  if pyInStr "funda" url then .ok .FUNDA
  else if pyInStr "huislijn" url then .ok .HUISLIJN
  else .error .valueError

end Scraper

namespace Scraper

/-- C6 counterexample: a file whose "urls" value is not an array of strings
is accepted by `load_requests` (the value is not validated), contradicting
the claim that such a file fails with `MalformedInput`. -/
theorem C6_counterexample :
    load_requests (some (.obj [("urls", .num 42)])) = .ok (.num 42) ∧
    load_requests (some (.obj [("urls", .num 42)])) ≠ .error .malformed := by
  constructor
  · rfl
  · intro h
    simp [load_requests, JValue.objGet] at h

/-- C6 (amended): loading fails with the missing-file error when the file
is absent; it fails with the malformed error exactly when the parsed JSON
is not an object or has no "urls" key; when a "urls" key is present its
value is returned as-is without validation, so a file of shape
`{"urls": [string, ...]}` yields exactly that list. -/
theorem C6_load_requests :
    load_requests none = .error .missingFile ∧
    (∀ kvs, JValue.objGet kvs "urls" = none →
      load_requests (some (.obj kvs)) = .error .malformed) ∧
    (∀ v : JValue, (∀ kvs, v ≠ .obj kvs) →
      load_requests (some v) = .error .malformed) ∧
    (∀ kvs v, JValue.objGet kvs "urls" = some v →
      load_requests (some (.obj kvs)) = .ok v) ∧
    (∀ urls : List String,
      load_requests (some (mkUrlsJson urls)) = .ok (.arr (urls.map .str))) := by
  refine ⟨rfl, ?_, ?_, ?_, ?_⟩
  · intro kvs h
    simp [load_requests, h]
  · intro v hv
    cases v with
    | obj kvs => exact absurd rfl (hv kvs)
    | null => rfl
    | bool b => rfl
    | num n => rfl
    | str s => rfl
    | arr xs => rfl
  · intro kvs v h
    simp [load_requests, h]
  · intro urls
    simp [mkUrlsJson, load_requests, JValue.objGet]

/-- Witness for C6 (amended): concrete instances of each quantified part. -/
theorem C6_load_requests_witness :
    load_requests (some (.obj [("items", .arr [])])) = .error .malformed ∧
    load_requests (some (.arr [.str "http://a"])) = .error .malformed ∧
    load_requests (some (.obj [("urls", .arr [.str "http://a"])])) = .ok (.arr [.str "http://a"]) ∧
    load_requests (some (mkUrlsJson ["http://a", "http://b"]))
      = .ok (.arr [.str "http://a", .str "http://b"]) := by
  refine ⟨C6_load_requests.2.1 _ rfl, C6_load_requests.2.2.1 _ ?_, ?_, ?_⟩
  · intro kvs h
    cases h
  · exact C6_load_requests.2.2.2.1 _ _ rfl
  · exact C6_load_requests.2.2.2.2 ["http://a", "http://b"]

/-- C7 counterexample: a URL whose hostname ("example.com") contains no
known site name is nevertheless tagged FUNDA because its path contains
"funda" — the match is against the whole URL, not the hostname. -/
theorem C7_counterexample :
    pyInStr "funda" "example.com" = false ∧
    pyInStr "huislijn" "example.com" = false ∧
    get_website "https://example.com/funda-page" = .ok .FUNDA := by
  refine ⟨by decide, by decide, by decide⟩

/-- C7 (amended): the source-site tag is derived from a substring match of
the whole URL string (scheme, host, path and query included) against the
closed set of known sites, "funda" taking precedence; only a URL containing
neither name anywhere fails with the unknown-website error. -/
theorem C7_get_website (url : String) :
    (pyInStr "funda" url = true → get_website url = .ok .FUNDA) ∧
    (pyInStr "funda" url = false → pyInStr "huislijn" url = true →
      get_website url = .ok .HUISLIJN) ∧
    (pyInStr "funda" url = false → pyInStr "huislijn" url = false →
      get_website url = .error .valueError) := by
  refine ⟨fun h => ?_, fun h1 h2 => ?_, fun h1 h2 => ?_⟩
  · simp [get_website, h]
  · simp [get_website, h1, h2]
  · simp [get_website, h1, h2]

/-- Witness for C7 (amended): concrete URLs for each branch. -/
theorem C7_get_website_witness :
    get_website "https://www.funda.nl/koop/amsterdam/" = .ok .FUNDA ∧
    get_website "https://www.huislijn.nl/koopwoning/x" = .ok .HUISLIJN ∧
    get_website "https://www.pararius.nl/huurwoningen" = .error .valueError := by
  refine ⟨(C7_get_website _).1 (by decide),
    (C7_get_website _).2.1 (by decide) (by decide),
    (C7_get_website _).2.2 (by decide) (by decide)⟩

/-- C9: the URL queue round-trips through its file: starting from a state
loaded from `{"urls": l}`, adding a URL not in `l` appends it, saves, and
reloading the saved file yields exactly `l ++ [url]` in order; adding a URL
already in `l` leaves the state (urls and file) unchanged. -/
theorem C9_add_url_roundtrip (l : List String) (url : String) :
    (url ∉ l →
      (add_url ⟨l, some (mkUrlsJson l)⟩ url).urls = l ++ [url] ∧
      load_requests (add_url ⟨l, some (mkUrlsJson l)⟩ url).file
        = .ok (.arr ((l ++ [url]).map .str))) ∧
    (url ∈ l → add_url ⟨l, some (mkUrlsJson l)⟩ url = ⟨l, some (mkUrlsJson l)⟩) := by
  constructor
  · intro h
    constructor
    · simp [add_url, h, save_to_file]
    · simp [add_url, h, save_to_file, mkUrlsJson, load_requests, JValue.objGet]
  · intro h
    simp [add_url, h]

/-- Witness for C9: loading ["http://a", "http://b"], adding "http://c" and
reloading yields the three URLs in order; re-adding "http://a" changes
nothing. -/
theorem C9_add_url_roundtrip_witness :
    (add_url ⟨["http://a", "http://b"], some (mkUrlsJson ["http://a", "http://b"])⟩ "http://c").urls
      = ["http://a", "http://b", "http://c"] ∧
    load_requests (add_url ⟨["http://a", "http://b"], some (mkUrlsJson ["http://a", "http://b"])⟩ "http://c").file
      = .ok (.arr [.str "http://a", .str "http://b", .str "http://c"]) ∧
    add_url ⟨["http://a", "http://b"], some (mkUrlsJson ["http://a", "http://b"])⟩ "http://a"
      = ⟨["http://a", "http://b"], some (mkUrlsJson ["http://a", "http://b"])⟩ := by
  have h := C9_add_url_roundtrip ["http://a", "http://b"] "http://c"
  have h2 := C9_add_url_roundtrip ["http://a", "http://b"] "http://a"
  have hc : "http://c" ∉ ["http://a", "http://b"] := by decide
  exact ⟨(h.1 hc).1, (h.1 hc).2, h2.2 (by decide)⟩

end Scraper

namespace Scraper

/-! ## src/scrapers/funda.py — price extraction (`get_property_price`)

Monetary amounts are modelled as integers: the one float operation the
claims mention (the price-per-area division) sits on a branch that is
proved unreachable below, so no floating-point behaviour is observable. -/

/-- The `Price` dataclass from src/models.py. -/
structure Price where
  asking_price : Option Int
  asking_price_per_square_meter : Option Int
  sale_price : Option Int
deriving DecidableEq, Repr

/-- Python truthiness of a JSON value (`if living_area and ...`). -/
def jTruthy : JValue → Bool
  | .null => false
  | .bool b => b
  | .num n => n ≠ 0
  | .str s => s ≠ ""
  | .arr xs => !xs.isEmpty
  | .obj kvs => !kvs.isEmpty

/-- Python `float(x)` on a JSON value (numeric result modelled as `Int`):
numbers and booleans convert, a digit string converts, any other string
raises `ValueError`, and `None` / containers raise `TypeError`. -/
def pyFloat : JValue → Except PyExc Int
  | .num n => .ok n
  | .bool b => .ok (if b then 1 else 0)
  | .str s => if pyIsDigit (pyStrip s) then .ok (digitsVal (pyStrip s).data : Int) else .error .valueError
  | .null => .error .typeError
  | .arr _ => .error .typeError
  | .obj _ => .error .typeError

/-- The metadata loop of `get_property_price`:
`for data in metadata: if "offers" in data and isinstance(data["offers"], dict):
price = data["offers"].get("price")`.  The membership test `"offers" in data`
raises `TypeError` on non-container scalars; on a list it only succeeds when
the string "offers" is an element, in which case the subsequent string
indexing `data["offers"]` raises `TypeError`; on a string it is a substring
test with the same subsequent `TypeError`. -/
def offers_scan : List JValue → Option JValue → Except PyExc (Option JValue)
  | [], price => .ok price
  | data :: rest, price =>
    match data with
    | .obj kvs =>
      match JValue.objGet kvs "offers" with
      | some (.obj okvs) => offers_scan rest (JValue.objGet okvs "price")
      | some _ => offers_scan rest price
      | none => offers_scan rest price
    | .arr xs =>
      if xs.any (fun x => match x with | .str s => s = "offers" | _ => false)
      then .error .typeError
      else offers_scan rest price
    | .str s =>
      if pyInStr "offers" s then .error .typeError else offers_scan rest price
    | .null => .error .typeError
    | .num _ => .error .typeError
    | .bool _ => .error .typeError

/-- `FundaScraper.get_property_price` over the parsed JSON-LD metadata.
The local variable `living_area` is initialized to `None` in the source and
never reassigned anywhere in the method, which this embedding keeps
verbatim; the outer `except` returns an empty `Price`, the inner `except`
around the float conversion leaves the fields assigned so far. -/
def get_property_price (metadata : List JValue) : Price :=
  match offers_scan metadata none with
  | .error _ => ⟨none, none, none⟩
  | .ok priceVal =>
    let living_area : Option JValue := none
    match priceVal with
    | none => ⟨none, none, none⟩
    | some pv =>
      match pyFloat pv with
      | .error _ => ⟨none, none, none⟩
      | .ok f =>
        match living_area with
        | none => ⟨some f, none, none⟩
        | some la =>
          if jTruthy la then
            match pyFloat la with
            | .error _ => ⟨some f, none, none⟩
            | .ok a => if 0 < a then ⟨some f, some (f / a), none⟩ else ⟨some f, none, none⟩
          else ⟨some f, none, none⟩

/-- C1: the price-per-square-meter field returned by `get_property_price`
is `none` for every metadata input, because the local `living_area` is
initialized to `None` and never assigned; in particular a listing whose
metadata carries an asking price (and whose page reports a living area)
still gets no price per square meter, contradicting the specified
`asking_price / living_area` computation. -/
theorem C1_per_sqm_always_none :
    (∀ metadata : List JValue,
      (get_property_price metadata).asking_price_per_square_meter = none) ∧
    get_property_price [.obj [("offers", .obj [("price", .num 450000)])]]
      = ⟨some 450000, none, none⟩ := by
  constructor
  · intro metadata
    unfold get_property_price
    cases offers_scan metadata none with
    | error e => rfl
    | ok priceVal =>
      cases priceVal with
      | none => rfl
      | some pv =>
        cases hf : pyFloat pv with
        | error e => simp [hf]
        | ok f => simp [hf]
  · rfl

end Scraper

namespace Scraper

/-! ## src/scrapers/funda.py — feature table extraction
(`get_property_type`, `get_property_information`)

The feature table built by `_get_feature_table` is a string-to-string dict,
modelled as an association list in insertion order with unique keys. -/

/-- `feature_table.get(k)`: first matching key, `None` when absent. -/
def tableGet (t : List (String × String)) (k : String) : Option String :=
  match t with
  | [] => none
  | (k', v) :: rest => if k' = k then some v else tableGet rest k

/-- `feature_table.get(k, d)`: lookup with a default. -/
def tableGetD (t : List (String × String)) (k d : String) : String :=
  (tableGet t k).getD d

/-- Index of the first occurrence of a character, if any. -/
def findIdx1 (c : Char) : List Char → Option Nat
  | [] => none
  | x :: xs => if x = c then some 0 else (findIdx1 c xs).map (· + 1)

/-- Index of the last occurrence of a character, if any. -/
def findLastIdx (c : Char) (l : List Char) : Option Nat :=
  (findIdx1 c l.reverse).map (fun i => l.length - 1 - i)

/-- Python `re.sub(r"\(.*\)", "", s)`: the greedy `.*` makes the single
match run from the first `(` to the last `)` standing after it, so that
span is removed; with no such pair the string is unchanged.  (`.` does not
cross newlines; feature-table values are single-line, which this model
assumes.) -/
def reSubParens (s : String) : String :=
  let cs := s.data
  match findIdx1 '(' cs, findLastIdx ')' cs with
  | some i, some j =>
    if i < j then ⟨cs.take i ++ cs.drop (j + 1)⟩ else s
  | _, _ => s

/-- Helper for `pySplitComma`. -/
def splitCommaAux : List Char → List Char → List String
  | [], acc => [⟨acc.reverse⟩]
  | c :: cs, acc =>
    if c = ',' then ⟨acc.reverse⟩ :: splitCommaAux cs []
    else splitCommaAux cs (c :: acc)

/-- Python `s.split(",")`: split at every comma, keeping empty parts; the
result is never empty. -/
def pySplitComma (s : String) : List String :=
  splitCommaAux s.data []

/-- The `Property` dataclass from src/models.py. -/
structure Property where
  energylabel : Option String
  living_area : Option Int
  num_rooms : Option Int
  build_year : Option Int
  type : Option String
deriving DecidableEq, Repr

/-- `FundaScraper.get_property_type`.  The Python `or` takes the first
truthy lookup; when both type keys are missing or empty the subsequent
`re.sub(..., None)` raises `TypeError`, which the local handler
(`KeyError, ValueError, AttributeError`) does not catch, so it propagates.
An all-bracket value becomes empty after the sub and trips the
`if not property_type` ValueError, which is caught and yields `None`. -/
def get_property_type (t : List (String × String)) : Except PyExc (Option String) :=
  let pt0 : Option String :=
    match tableGet t "Soort woonhuis" with
    | some v => if v ≠ "" then some v else tableGet t "Soort appartement"
    | none => tableGet t "Soort appartement"
  match pt0 with
  | none => .error .typeError
  | some v =>
    let v1 := reSubParens v
    if v1 = "" then .ok none
    else .ok (some (pyStrip ((pySplitComma v1).headD "")))

/-- The pattern `int(x_str.split()[0]) if x_str else None` used for the
living area and the room count: `None` on an empty string, otherwise
`IndexError` when the split yields no token, otherwise `int` on the first
token. -/
def parseFirstTokenInt (s : String) : Except PyExc (Option Int) :=
  if s ≠ "" then do
    let tok ← pyGetZero (pySplitWs s)
    let n ← pyInt tok
    pure (some n)
  else pure none

/-- The body of the `try` block of `get_property_information`, in source
order: living area (default "0 m²", token parse unless the value is empty),
room count (default "0"), build year (digit check, no exception), energy
label, then the property type. -/
def propertyInformationBody (t : List (String × String)) : Except PyExc Property := do
  let living_area ← parseFirstTokenInt (tableGetD t "Wonen" "0 m²")
  let num_rooms ← parseFirstTokenInt (tableGetD t "Aantal kamers" "0")
  let build_year : Option Int :=
    match tableGet t "Bouwjaar" with
    | some s => if pyIsDigit s then some (digitsVal s.data : Int) else none
    | none => none
  let energylabel := tableGet t "Energielabel"
  let ptype ← get_property_type t
  pure ⟨energylabel, living_area, num_rooms, build_year, ptype⟩

/-- `FundaScraper.get_property_information`: the whole body runs under one
`try`; `KeyError`, `ValueError` and `TypeError` are caught at the method
boundary and turn into an empty `Property`; other exceptions (such as
`IndexError` from `"".split()[0]` on an all-whitespace value) propagate. -/
def get_property_information (t : List (String × String)) : Except PyExc Property :=
  match propertyInformationBody t with
  | .ok p => .ok p
  | .error e =>
    if e = .keyError ∨ e = .valueError ∨ e = .typeError
    then .ok ⟨none, none, none, none, none⟩
    else .error e

end Scraper

namespace Scraper

lemma mem_of_mem_dropWsLeft {c : Char} {l : List Char} (h : c ∈ dropWsLeft l) : c ∈ l := by
  induction l with
  | nil => simp [dropWsLeft] at h
  | cons x xs ih =>
    by_cases hx : pyIsWs x
    · simp only [dropWsLeft, List.dropWhile_cons, hx] at h
      exact List.mem_cons_of_mem x (ih h)
    · simpa [dropWsLeft, List.dropWhile_cons, hx] using h

lemma pySplitWsAux_chars {c : Char} :
    ∀ (l acc : List Char) (tok : String), tok ∈ pySplitWsAux l acc →
      c ∈ tok.data → c ∈ l ∨ c ∈ acc := by
  intro l
  induction l with
  | nil =>
    intro acc tok htok hc
    cases acc with
    | nil => simp [pySplitWsAux] at htok
    | cons a as =>
      simp only [pySplitWsAux, List.mem_singleton] at htok
      subst htok
      simp only [List.mem_reverse] at hc
      exact Or.inr hc
  | cons x xs ih =>
    intro acc tok htok hc
    by_cases hx : pyIsWs x
    · cases acc with
      | nil =>
        simp only [pySplitWsAux, hx, if_pos] at htok
        rcases ih [] tok htok hc with h | h
        · exact Or.inl (List.mem_cons_of_mem x h)
        · simp at h
      | cons a as =>
        simp only [pySplitWsAux, hx, if_pos, List.mem_cons] at htok
        rcases htok with htok | htok
        · subst htok
          simp only [List.mem_reverse] at hc
          exact Or.inr (by simpa using hc)
        · rcases ih [] tok htok hc with h | h
          · exact Or.inl (List.mem_cons_of_mem x h)
          · simp at h
    · simp only [pySplitWsAux, hx, if_neg, Bool.false_eq_true, not_false_iff] at htok
      rcases ih (x :: acc) tok htok hc with h | h
      · exact Or.inl (List.mem_cons_of_mem x h)
      · rcases List.mem_cons.mp h with h | h
        · exact Or.inl (h ▸ List.mem_cons_self x xs)
        · exact Or.inr h

lemma pySplitWs_chars {c : Char} {s tok : String}
    (htok : tok ∈ pySplitWs s) (hc : c ∈ tok.data) : c ∈ s.data := by
  rcases pySplitWsAux_chars s.data [] tok htok hc with h | h
  · exact h
  · simp at h

lemma pyInt_nonneg {s : String} {n : Int}
    (hs : '-' ∉ s.data) (h : pyInt s = .ok n) : 0 ≤ n := by
  have hsub : ∀ c : Char, c ∈ (dropWsLeft ((dropWsLeft s.data).reverse)).reverse → c ∈ s.data := by
    intro c hct
    rw [List.mem_reverse] at hct
    have h1 := mem_of_mem_dropWsLeft hct
    rw [List.mem_reverse] at h1
    exact mem_of_mem_dropWsLeft h1
  simp only [pyInt] at h
  revert hsub h
  generalize (dropWsLeft ((dropWsLeft s.data).reverse)).reverse = t
  intro h hsub
  cases t with
  | nil => cases h
  | cons c ds =>
    dsimp only [] at h
    by_cases hcm : c = '-'
    · exact absurd (hsub c (List.mem_cons_self c ds)) (fun hmem => hs (hcm ▸ hmem))
    · rw [if_neg hcm] at h
      by_cases hcp : c = '+'
      · rw [if_pos hcp] at h
        split at h
        · injection h with h2
          exact h2 ▸ Int.natCast_nonneg _
        · cases h
      · rw [if_neg hcp] at h
        split at h
        · injection h with h2
          exact h2 ▸ Int.natCast_nonneg _
        · cases h

/-- The field invariant stated by the claim: null or strictly positive. -/
def nullOrPositive (o : Option Int) : Bool :=
  match o with
  | none => true
  | some n => decide (0 < n)

/-- The field invariant the code actually guarantees on minus-free input:
null or non-negative. -/
def nullOrNonneg (o : Option Int) : Bool :=
  match o with
  | none => true
  | some n => decide (0 ≤ n)

lemma parseFirstTokenInt_nonneg {s : String} {r : Option Int}
    (hs : '-' ∉ s.data) (h : parseFirstTokenInt s = .ok r) :
    nullOrNonneg r = true := by
  unfold parseFirstTokenInt at h
  by_cases hse : s = ""
  · simp only [hse, ne_eq, not_true_eq_false, if_false, pure, Except.pure] at h
    cases h
    rfl
  · simp only [ne_eq, hse, not_false_iff, if_true] at h
    cases hsp : pySplitWs s with
    | nil =>
      rw [hsp] at h
      cases h
    | cons tok rest =>
      rw [hsp] at h
      simp only [pyGetZero, bind, Except.bind] at h
      cases hint : pyInt tok with
      | error e => rw [hint] at h; cases h
      | ok n =>
        rw [hint] at h
        simp only [pure, Except.pure] at h
        cases h
        have htokmem : tok ∈ pySplitWs s := by rw [hsp]; exact List.mem_cons_self tok rest
        have hnm : '-' ∉ tok.data := fun hm => hs (pySplitWs_chars htokmem hm)
        simpa [nullOrNonneg] using pyInt_nonneg hnm hint

end Scraper

namespace Scraper

/-- C2 counterexample: a non-integer living-area token ("abc m²") does not
degrade only the living-area field — the `ValueError` is caught at the
method boundary and the whole `Property` comes back empty, so the sibling
energy-label field changes (from `some "A"` to `none`) relative to the same
table without the failing entry. -/
theorem C2_counterexample :
    get_property_information
        [("Wonen", "abc m²"), ("Energielabel", "A"), ("Soort woonhuis", "Huis")]
      = .ok ⟨none, none, none, none, none⟩ ∧
    get_property_information [("Energielabel", "A"), ("Soort woonhuis", "Huis")]
      = .ok ⟨some "A", some 0, some 0, none, some "Huis"⟩ ∧
    (get_property_information
        [("Wonen", "abc m²"), ("Energielabel", "A"), ("Soort woonhuis", "Huis")]).map
        Property.energylabel
      ≠ (get_property_information
        [("Energielabel", "A"), ("Soort woonhuis", "Huis")]).map Property.energylabel := by
  refine ⟨by decide, by decide, by decide⟩

lemma parseFirstTokenInt_fails {s tok : String} {rest : List String}
    (hne : s ≠ "") (hsplit : pySplitWs s = tok :: rest)
    (hint : pyInt tok = .error .valueError) :
    parseFirstTokenInt s = .error .valueError := by
  unfold parseFirstTokenInt
  rw [if_pos hne, hsplit]
  simp [pyGetZero, bind, Except.bind, hint]

/-- C2 (amended): a parsing failure of the living-area field inside
`get_property_information` is caught at the method boundary, not the field
boundary: the result is a `Property` with every field null, so the sibling
fields (energy label, build year, property type) are lost as well. -/
theorem C2_failure_nulls_all_fields (t : List (String × String)) (tok : String)
    (rest : List String)
    (hne : tableGetD t "Wonen" "0 m²" ≠ "")
    (hsplit : pySplitWs (tableGetD t "Wonen" "0 m²") = tok :: rest)
    (hint : pyInt tok = .error .valueError) :
    get_property_information t = .ok ⟨none, none, none, none, none⟩ := by
  have hbody : propertyInformationBody t = .error .valueError := by
    unfold propertyInformationBody
    rw [parseFirstTokenInt_fails hne hsplit hint]
    simp [bind, Except.bind]
  unfold get_property_information
  rw [hbody]
  simp

/-- Witness for C2 (amended): a table whose living-area value has the
non-numeric first token "x" comes back as an all-null `Property`, losing
the present energy label. -/
theorem C2_failure_nulls_all_fields_witness :
    get_property_information [("Wonen", "x y"), ("Energielabel", "B")]
      = .ok ⟨none, none, none, none, none⟩ :=
  C2_failure_nulls_all_fields [("Wonen", "x y"), ("Energielabel", "B")] "x" ["y"]
    (by decide) (by decide) (by decide)

/-- C5 counterexample: a feature table lacking the living-area and
room-count labels (but carrying a property type) yields `living_area = 0`
and `num_rooms = 0` — zero, not null and not positive — because the
defaults `"0 m²"` and `"0"` are parsed instead of falling back to `None`. -/
theorem C5_counterexample :
    get_property_information [("Soort woonhuis", "Huis")]
      = .ok ⟨none, some 0, some 0, none, some "Huis"⟩ ∧
    nullOrPositive (some 0) = false := by
  refine ⟨by decide, by decide⟩

/-- C5 (amended): every `Property` produced by `get_property_information`
from a feature table whose living-area and room-count entries contain no
minus sign has `living_area` and `num_rooms` each either null or a
non-negative integer, and a table lacking those labels yields 0 (not null)
for both when a property type is present. -/
theorem C5_living_area_null_or_nonneg :
    (∀ (t : List (String × String)) (p : Property),
      get_property_information t = .ok p →
      '-' ∉ (tableGetD t "Wonen" "0 m²").data →
      '-' ∉ (tableGetD t "Aantal kamers" "0").data →
      nullOrNonneg p.living_area = true ∧ nullOrNonneg p.num_rooms = true) ∧
    get_property_information [("Soort appartement", "Flat")]
      = .ok ⟨none, some 0, some 0, none, some "Flat"⟩ := by
  constructor
  · intro t p hp hw hk
    unfold get_property_information at hp
    cases hbody : propertyInformationBody t with
    | error e =>
      rw [hbody] at hp
      dsimp only [] at hp
      by_cases hc : e = .keyError ∨ e = .valueError ∨ e = .typeError
      · rw [if_pos hc] at hp
        injection hp with hp2
        rw [← hp2]
        exact ⟨rfl, rfl⟩
      · rw [if_neg hc] at hp
        cases hp
    | ok q =>
      rw [hbody] at hp
      dsimp only [] at hp
      injection hp with hpq
      subst hpq
      unfold propertyInformationBody at hbody
      cases h1 : parseFirstTokenInt (tableGetD t "Wonen" "0 m²") with
      | error e => rw [h1] at hbody; simp [bind, Except.bind] at hbody
      | ok la =>
        rw [h1] at hbody
        simp only [bind, Except.bind] at hbody
        cases h2 : parseFirstTokenInt (tableGetD t "Aantal kamers" "0") with
        | error e => rw [h2] at hbody; simp at hbody
        | ok nr =>
          rw [h2] at hbody
          simp only [] at hbody
          cases h3 : get_property_type t with
          | error e => rw [h3] at hbody; simp at hbody
          | ok pt =>
            rw [h3] at hbody
            simp only [pure, Except.pure, Except.ok.injEq] at hbody
            rw [← hbody]
            exact ⟨parseFirstTokenInt_nonneg hw h1, parseFirstTokenInt_nonneg hk h2⟩
  · decide

/-- Witness for C5 (amended): the quantified part applied to a concrete
table with living area "120 m²". -/
theorem C5_living_area_null_or_nonneg_witness :
    nullOrNonneg (Property.living_area ⟨none, some 120, some 0, none, some "Huis"⟩) = true ∧
    nullOrNonneg (Property.num_rooms ⟨none, some 120, some 0, none, some "Huis"⟩) = true :=
  C5_living_area_null_or_nonneg.1 [("Wonen", "120 m²"), ("Soort woonhuis", "Huis")]
    ⟨none, some 120, some 0, none, some "Huis"⟩ (by decide) (by decide) (by decide)

end Scraper

namespace Scraper

/-! ## src/scrapers/funda.py — listing date (`parse_listing_date`)

The `__NUXT_DATA__` script block is a JSON array; `json.loads` of it is
modelled as `Option (List JValue)` (`none` when the script tag is absent).
Python `str()` / `repr()` rendering of containers is modelled with single
quotes and without escape sequences, which matches every value these pages
hold; iterating a dict yields its keys. -/

mutual

/-- Python `repr()` of a parsed JSON value. -/
def pyRepr : JValue → String
  | .null => "None"
  | .bool true => "True"
  | .bool false => "False"
  | .num n => toString n
  | .str s => String.singleton (Char.ofNat 39) ++ s ++ String.singleton (Char.ofNat 39)
  | .arr xs => "[" ++ pyReprList xs ++ "]"
  | .obj kvs => "\x7b" ++ pyReprObj kvs ++ "\x7d"

/-- Comma-separated `repr`s of list elements. -/
def pyReprList : List JValue → String
  | [] => ""
  | [x] => pyRepr x
  | x :: y :: xs => pyRepr x ++ ", " ++ pyReprList (y :: xs)

/-- Comma-separated `repr(key): repr(value)` pairs of a dict. -/
def pyReprObj : List (String × JValue) → String
  | [] => ""
  | [(k, v)] => pyRepr (.str k) ++ ": " ++ pyRepr v
  | (k, v) :: kv :: kvs => pyRepr (.str k) ++ ": " ++ pyRepr v ++ ", " ++ pyReprObj (kv :: kvs)

end

/-- Python `str()` of a parsed JSON value: a string renders as itself,
everything else as its `repr`. -/
def pyStr (v : JValue) : String :=
  match v with
  | .str s => s
  | .null => pyRepr .null
  | .bool b => pyRepr (.bool b)
  | .num n => pyRepr (.num n)
  | .arr xs => pyRepr (.arr xs)
  | .obj kvs => pyRepr (.obj kvs)

/-- The flattening loop of `parse_listing_date`: each top-level item that is
a list contributes `str(x)` for each element, each dict contributes its
keys (`str(x) for x in item` iterates keys), and every other item
contributes its own `str` form. -/
def flattenNuxt (data : List JValue) : List String :=
  data.flatMap fun item =>
    match item with
    | .arr xs => xs.map pyStr
    | .obj kvs => kvs.map fun kv => kv.1
    | x => [pyStr x]

/-- Python `lst.index(target)` wrapped in the source's `try`: the index of
the first occurrence, `none` when absent. -/
def pyIndexOf (target : String) : List String → Option Nat
  | [] => none
  | x :: xs => if x = target then some 0 else (pyIndexOf target xs).map (· + 1)

/-- `FundaScraper.parse_listing_date`: flatten the `__NUXT_DATA__` array
one level, look for the sentinel, and return the element two positions
after it when that position exists. -/
def parse_listing_date (script : Option (List JValue)) : Option String :=
  match script with
  | none => none
  | some data =>
    let flat := flattenNuxt data
    match pyIndexOf "overdracht-aangeboden-sinds" flat with
    | none => none
    | some i => if i + 2 < flat.length then flat.get? (i + 2) else none

lemma pyIndexOf_eq_none_of_not_mem {t : String} :
    ∀ l : List String, t ∉ l → pyIndexOf t l = none := by
  intro l
  induction l with
  | nil => intro _; rfl
  | cons x xs ih =>
    intro h
    have hx : ¬ x = t := fun he => h (he ▸ List.mem_cons_self x xs)
    have hxs : t ∉ xs := fun hm => h (List.mem_cons_of_mem x hm)
    simp [pyIndexOf, hx, ih hxs]

lemma pyIndexOf_eq_some_of_first {t : String} :
    ∀ (l : List String) (i : Nat), l.get? i = some t →
      (∀ j, j < i → l.get? j ≠ some t) → pyIndexOf t l = some i := by
  intro l
  induction l with
  | nil => intro i hi _; simp at hi
  | cons x xs ih =>
    intro i hi hfirst
    by_cases hx : x = t
    · cases i with
      | zero => simp [pyIndexOf, hx]
      | succ i' =>
        exact absurd (by simpa using congrArg some hx) (hfirst 0 (Nat.succ_pos i'))
    · cases i with
      | zero => simp at hi; exact absurd hi hx
      | succ i' =>
        have hi' : xs.get? i' = some t := by simpa using hi
        have hfirst' : ∀ j, j < i' → xs.get? j ≠ some t := by
          intro j hj hget
          exact hfirst (j + 1) (Nat.succ_lt_succ hj) (by simpa using hget)
        simp [pyIndexOf, hx, ih i' hi' hfirst']

/-- C8: `parse_listing_date` flattens the `__NUXT_DATA__` array one level
(string forms of scalars, of the elements of nested arrays, and of the
keys of nested objects, in order) and returns the element two positions
after the first occurrence of the sentinel "overdracht-aangeboden-sinds"
in that flattened stream; it returns null when the script block or the
sentinel is absent. -/
theorem C8_parse_listing_date :
    parse_listing_date none = none ∧
    (∀ data : List JValue,
      "overdracht-aangeboden-sinds" ∉ flattenNuxt data →
      parse_listing_date (some data) = none) ∧
    (∀ (data : List JValue) (i : Nat),
      (flattenNuxt data).get? i = some "overdracht-aangeboden-sinds" →
      (∀ j, j < i → (flattenNuxt data).get? j ≠ some "overdracht-aangeboden-sinds") →
      i + 2 < (flattenNuxt data).length →
      parse_listing_date (some data) = (flattenNuxt data).get? (i + 2)) := by
  refine ⟨rfl, ?_, ?_⟩
  · intro data h
    unfold parse_listing_date
    dsimp only []
    rw [pyIndexOf_eq_none_of_not_mem _ h]
  · intro data i hi hfirst hlen
    unfold parse_listing_date
    dsimp only []
    rw [pyIndexOf_eq_some_of_first _ i hi hfirst]
    dsimp only []
    rw [if_pos hlen]

/-- Witness for C8: a concrete `__NUXT_DATA__` array whose nested list
holds the sentinel at flat position 1, so the date at flat position 3 is
returned; and an array without the sentinel yields null. -/
theorem C8_parse_listing_date_witness :
    parse_listing_date
        (some [.str "header",
               .arr [.str "overdracht-aangeboden-sinds", .str "7", .str "2024-05-01"]])
      = some "2024-05-01" ∧
    parse_listing_date (some [.str "header", .arr [.str "prijs", .str "450000"]]) = none := by
  constructor
  · exact (C8_parse_listing_date.2.2
      [.str "header", .arr [.str "overdracht-aangeboden-sinds", .str "7", .str "2024-05-01"]]
      1 rfl
      (fun j hj => by
        have hj0 : j = 0 := Nat.lt_one_iff.mp hj
        subst hj0
        decide)
      (by decide)).trans rfl
  · exact C8_parse_listing_date.2.1 [.str "header", .arr [.str "prijs", .str "450000"]]
      (by decide)

end Scraper

namespace Scraper

/-! ## src/utils/utils.py — `parse_address_line`

The source matches the title with
`re.search(r"(?:.*?):\s*([\w\s]+)\s+(\d+)\s*(\d{4}\s*[A-Z]{2})\s*([A-Za-z\s]+)(?:\s*\[funda\])?", title)`.
The embedding implements exactly this pattern's search semantics on ASCII
text with a specialized backtracking matcher.

* `re.search` tries start positions left to right and the lazy `(?:.*?):`
  extends shortest-first, so the first successful attempt overall is the
  leftmost colon whose tail matches the remainder of the pattern (the text
  before the colon is not captured, and a colon unreachable by `.` over a
  newline is reached instead from a later start position).
* Every repetition in the remainder is over a single character class, so
  greedy backtracking enumerates candidate lengths longest-first, outer
  (earlier) repetitions backtracking only after all inner choices fail.
* The trailing optional `(?:\s*\[funda\])?` can always match empty and
  nothing follows it, so it affects neither success nor the groups.
* Character classes are ASCII: `\w` is a letter, digit, or underscore,
  `\s` is `pyIsWs`, `[A-Z]` and `[A-Za-z]` are ASCII letters. -/

/-- Regex `\w` on ASCII: letter, digit, or underscore. -/
def isWordChar (c : Char) : Bool :=
  (('a' ≤ c && c ≤ 'z') || ('A' ≤ c && c ≤ 'Z')) || c.isDigit || c = '_'

/-- Regex `[A-Z]`. -/
def isUpperAscii (c : Char) : Bool :=
  'A' ≤ c && c ≤ 'Z'

/-- Regex `[A-Za-z]`. -/
def isLetterAscii (c : Char) : Bool :=
  ('a' ≤ c && c ≤ 'z') || ('A' ≤ c && c ≤ 'Z')

/-- Regex `[\w\s]`. -/
def isWordOrWs (c : Char) : Bool :=
  isWordChar c || pyIsWs c

/-- Regex `[A-Za-z\s]`. -/
def isLetterOrWs (c : Char) : Bool :=
  isLetterAscii c || pyIsWs c

/-- Length of the longest prefix whose characters satisfy `p` (the maximal
extent of a repetition over the class `p`). -/
def countWhile (p : Char → Bool) : List Char → Nat
  | [] => 0
  | c :: cs => if p c then countWhile p cs + 1 else 0

/-- Candidate lengths of a greedy `*` over a class with maximal extent `n`:
`n, n-1, ..., 0`. -/
def downFrom (n : Nat) : List Nat :=
  (List.range (n + 1)).reverse

/-- Candidate lengths of a greedy `+` over a class with maximal extent `n`:
`n, n-1, ..., 1` (empty when `n = 0`, so the `+` fails). -/
def downFrom1 (n : Nat) : List Nat :=
  (List.range n).reverse.map (· + 1)

/-- The captured groups: street, house number, zip code (with any interior
whitespace still present), city. -/
structure AddrGroups where
  g1 : List Char
  g2 : List Char
  g3 : List Char
  g4 : List Char
deriving DecidableEq, Repr

/-- Match the pattern remainder
`\s*([\w\s]+)\s+(\d+)\s*(\d{4}\s*[A-Z]{2})\s*([A-Za-z\s]+)(?:\s*\[funda\])?`
against the text following a colon, with greedy backtracking: each
`findSome?` tries the candidate lengths of one repetition longest-first
and returns the first overall success. -/
def matchTail (rest : List Char) : Option AddrGroups :=
  (downFrom (countWhile pyIsWs rest)).findSome? fun a =>
    let r1 := rest.drop a
    (downFrom1 (countWhile isWordOrWs r1)).findSome? fun b =>
      let g1 := r1.take b
      let r2 := r1.drop b
      (downFrom1 (countWhile pyIsWs r2)).findSome? fun c =>
        let r3 := r2.drop c
        (downFrom1 (countWhile Char.isDigit r3)).findSome? fun d =>
          let g2 := r3.take d
          let r4 := r3.drop d
          (downFrom (countWhile pyIsWs r4)).findSome? fun e =>
            let r5 := r4.drop e
            if (r5.take 4).length == 4 && (r5.take 4).all Char.isDigit then
              let r6 := r5.drop 4
              (downFrom (countWhile pyIsWs r6)).findSome? fun f =>
                let r7 := r6.drop f
                if (r7.take 2).length == 2 && (r7.take 2).all isUpperAscii then
                  let g3 := r5.take 4 ++ r6.take f ++ r7.take 2
                  let r8 := r7.drop 2
                  (downFrom (countWhile pyIsWs r8)).findSome? fun g =>
                    let r9 := r8.drop g
                    (downFrom1 (countWhile isLetterOrWs r9)).findSome? fun hh =>
                      some ⟨g1, g2, g3, r9.take hh⟩
                else none
            else none

/-- The tails of the text after each colon, in left-to-right order of the
colons (the order in which `re.search` with the lazy prefix attempts
them). -/
def colonTails : List Char → List (List Char)
  | [] => []
  | c :: cs => if c = ':' then cs :: colonTails cs else colonTails cs

/-- `re.search` of the full address pattern: the first colon whose tail
matches the remainder wins. -/
def matchAddress (s : List Char) : Option AddrGroups :=
  (colonTails s).findSome? matchTail

/-- The `Address` dataclass from src/models.py. -/
structure Address where
  street : Option String
  number : Option String
  city : Option String
  zip_code : Option String
  neighbourhood : Option String
  province : Option String
  country : String
deriving DecidableEq, Repr

/-- `parse_address_line`: on a match, street and city are stripped, the
zip code has its spaces removed (`.replace(" ", "")`), the number is taken
verbatim; otherwise a `ValueError` is raised (the re-raise in the source's
`except` clause keeps it a `ValueError`). -/
def parse_address_line (title : String) : Except PyExc Address :=
  match matchAddress title.data with
  | none => .error .valueError
  | some g =>
    .ok { street := some (pyStrip ⟨g.g1⟩), number := some ⟨g.g2⟩,
          city := some (pyStrip ⟨g.g4⟩),
          zip_code := some ⟨g.g3.filter (fun c => c ≠ ' ')⟩,
          neighbourhood := none, province := none,
          country := "The Netherlands" }

end Scraper

namespace Scraper

/-- C3: `parse_address_line` succeeds exactly on the titles matched by the
address pattern; on a match it returns the four captured components (street
and city stripped, number verbatim, zip code with spaces removed — so the
returned zip code never contains a space, and a space between the digits
and the letters is stripped), and on every non-matching string it fails
with a `ValueError`.  "Koop: Dorpsstraat 1 1234AB Amsterdam" yields
street "Dorpsstraat", number "1", zip "1234AB", city "Amsterdam";
"No address here" fails. -/
theorem C3_parse_address_line :
    parse_address_line "Koop: Dorpsstraat 1 1234AB Amsterdam"
      = .ok ⟨some "Dorpsstraat", some "1", some "Amsterdam", some "1234AB",
             none, none, "The Netherlands"⟩ ∧
    parse_address_line "Koop: Dorpsstraat 1 1234 AB Amsterdam"
      = .ok ⟨some "Dorpsstraat", some "1", some "Amsterdam", some "1234AB",
             none, none, "The Netherlands"⟩ ∧
    parse_address_line "No address here" = .error .valueError ∧
    (∀ t : String, (∃ a, parse_address_line t = .ok a) ↔ (matchAddress t.data).isSome = true) ∧
    (∀ (t : String) (g : AddrGroups), matchAddress t.data = some g →
      parse_address_line t
        = .ok ⟨some (pyStrip ⟨g.g1⟩), some ⟨g.g2⟩, some (pyStrip ⟨g.g4⟩),
               some ⟨g.g3.filter (fun c => c ≠ ' ')⟩, none, none, "The Netherlands"⟩) ∧
    (∀ t : String, matchAddress t.data = none → parse_address_line t = .error .valueError) ∧
    (∀ (t : String) (a : Address), parse_address_line t = .ok a →
      ∀ zc : String, a.zip_code = some zc → ' ' ∉ zc.data) := by
  refine ⟨by decide, by decide, by decide, ?_, ?_, ?_, ?_⟩
  · intro t
    constructor
    · rintro ⟨a, ha⟩
      unfold parse_address_line at ha
      cases hm : matchAddress t.data with
      | none => rw [hm] at ha; cases ha
      | some g => rfl
    · intro h
      rcases Option.isSome_iff_exists.mp h with ⟨g, hg⟩
      exact ⟨_, by unfold parse_address_line; rw [hg]⟩
  · intro t g hg
    unfold parse_address_line
    rw [hg]
  · intro t h
    unfold parse_address_line
    rw [h]
  · intro t a ha zc hz hmem
    unfold parse_address_line at ha
    cases hm : matchAddress t.data with
    | none => rw [hm] at ha; cases ha
    | some g =>
      rw [hm] at ha
      injection ha with ha2
      rw [← ha2] at hz
      injection hz with hz2
      rw [← hz2] at hmem
      rcases List.mem_filter.mp hmem with ⟨_, hd⟩
      simp at hd

/-- Witness for C3: a title with a spaced zip code parses with the space
removed and a spaceless zip, and a title without any colon fails. -/
theorem C3_parse_address_line_witness :
    parse_address_line "Huur: Kade 5 9876 ZZ Utrecht"
      = .ok ⟨some "Kade", some "5", some "Utrecht", some "9876ZZ",
             none, none, "The Netherlands"⟩ ∧
    ' ' ∉ ("9876ZZ" : String).data ∧
    parse_address_line "Huurwoningen in Utrecht" = .error .valueError := by
  refine ⟨by decide, ?_, ?_⟩
  · exact C3_parse_address_line.2.2.2.2.2.2 "Huur: Kade 5 9876 ZZ Utrecht"
      ⟨some "Kade", some "5", some "Utrecht", some "9876ZZ",
       none, none, "The Netherlands"⟩ (by decide) "9876ZZ" rfl
  · exact C3_parse_address_line.2.2.2.2.2.1 "Huurwoningen in Utrecht" (by decide)

end Scraper
